import Mathlib

/-!
Verification of the Portfolio Analyzer application (portfolio_app.py).

The source is a single-file Flask application. Monetary quantities are
Python floats fed from CSV decimals; we model them as exact rationals (ℚ).
Stateful endpoints are modelled as pure functions from the current store
(a list of holdings, plus the market-data cache) and the request to the
new store and the HTTP response. External effects (pandas CSV parsing,
the yfinance quote lookup) are modelled as explicit inputs: the parse
outcome travels with the uploaded file, and the quote lookup is an
oracle argument that may fail with an exception message.
-/

namespace PortfolioApp

/-- Round a rational to the nearest integer, ties to even.  Models the
behaviour of the Python round builtin and string formatting on decimal values. -/
def roundHalfEven (q : ℚ) : ℤ :=
  let d : ℤ := q.den
  let f := q.num.fdiv d
  let rem := q.num - f * d
  if 2 * rem < d then f
  else if d < 2 * rem then f + 1
  else if f % 2 = 0 then f else f + 1

/-- Python round(x, 2): round to 2 decimal places. -/
def round2 (q : ℚ) : ℚ := (roundHalfEven (q * 100) : ℚ) / 100

/-- Python f-string formatting to one decimal place, f"{x:.1f}". -/
def fmt1 (q : ℚ) : String :=
  let n := roundHalfEven (q * 10)
  let sign := if n < 0 then "-" else ""
  let m := n.natAbs
  sign ++ toString (m / 10) ++ "." ++ toString (m % 10)

/-- A row of the holdings table (source: init_db, CREATE TABLE holdings).
The id and date_added columns play no role in any computation and are
omitted. -/
structure Holding where
  ticker : String
  exchange : String
  currency : String
  start_value : ℚ
  end_value : ℚ
  start_price : ℚ
  end_price : ℚ
  dividends : ℚ
  fees : ℚ
deriving DecidableEq

/-- The recommendation enum of the spec: BUY, HOLD, SELL, CLOSED. -/
inductive Recommendation where
  | BUY
  | HOLD
  | SELL
  | CLOSED
deriving DecidableEq

/-- One entry of the /api/recommendations response (source:
get_recommendations, the dict appended per holding, lines 800-805). -/
structure RecEntry where
  ticker : String
  current_value : ℚ
  return_percentage : ℚ
  recommendation : Recommendation
  action : String
  rationale : String
deriving DecidableEq

/-- Return-percentage computation of get_recommendations, lines 744-748:
if start_value > 0 the percentage change, otherwise 0 when end_value is
also 0 and 100 otherwise. -/
def returnPct (start_value end_value : ℚ) : ℚ :=
  if start_value > 0 then ((end_value - start_value) / start_value) * 100
  else if end_value = 0 then 0 else 100

/-- The per-holding body of get_recommendations (lines 739-805): the
ordered rule chain (a cascading conditional, first match wins) producing
the recommendation, action and rationale, packaged with the ticker, the
rounded current value and the rounded return percentage. -/
def recommendFor (h : Holding) : RecEntry :=
  let return_pct := returnPct h.start_value h.end_value
  let rec0 : Recommendation × String × String :=
    if h.end_value = 0 ∧ h.start_value > 0 then
      (.CLOSED, "Position Closed", "Position has been exited")
    else if h.ticker ∈ ["SMH"] ∧ return_pct > 100 then
      (.SELL, "Take Profits",
        "Exceptional gain of " ++ fmt1 return_pct ++ "%. Lock in 50-70% profits")
    else if h.ticker ∈ ["QQQ"] ∧ return_pct > 60 then
      (.SELL, "Reduce Position",
        "Strong gain of " ++ fmt1 return_pct ++ "%. Reduce by 40%")
    else if h.ticker ∈ ["SPK"] ∧ return_pct < -30 then
      (.SELL, "Cut Losses",
        "Down " ++ fmt1 |return_pct| ++ "%. Exit to prevent further losses")
    else if return_pct > 50 then
      (.SELL, "Take Profits",
        "Strong gain of " ++ fmt1 return_pct ++ "%. Consider taking partial profits")
    else if return_pct < -20 then
      (.SELL, "Review Position",
        "Down " ++ fmt1 |return_pct| ++ "%. Review investment thesis")
    else if return_pct > 20 then
      (.HOLD, "Monitor Winner",
        "Good gain of " ++ fmt1 return_pct ++ "%. Let winner run with trailing stop")
    else
      (.HOLD, "Maintain", "Position within normal range")
  { ticker := h.ticker
  , current_value := round2 h.end_value
  , return_percentage := round2 return_pct
  , recommendation := rec0.1
  , action := rec0.2.1
  , rationale := rec0.2.2 }

/-- Response of GET /api/recommendations (the generated_at timestamp is
incidental and omitted). -/
inductive RecResponse where
  | noHoldings (message : String)
  | ok (recommendations : List RecEntry)
deriving DecidableEq

/-- GET /api/recommendations (source: get_recommendations, lines
726-810): empty store answers with a message, otherwise one entry per
holding in store order. -/
def get_recommendations (store : List Holding) : RecResponse :=
  if store.isEmpty then .noHoldings "No holdings found"
  else .ok (store.map recommendFor)

/-- Summary block of GET /api/portfolio. -/
structure PortfolioSummary where
  total_value : ℚ
  total_return : ℚ
  return_percentage : ℚ
  total_dividends : ℚ
  holdings_count : ℕ
deriving DecidableEq

/-- The portfolio metrics computed by get_portfolio, lines 581-585,
before the 2-decimal rounding applied when the JSON response is built. -/
def portfolioSummary (hs : List Holding) : PortfolioSummary :=
  let total_value := (hs.map Holding.end_value).sum
  let total_start_value := (hs.map Holding.start_value).sum
  let total_return := total_value - total_start_value
  let return_pct :=
    if total_start_value > 0 then total_return / total_start_value * 100 else 0
  let total_dividends := (hs.map Holding.dividends).sum
  { total_value := total_value
  , total_return := total_return
  , return_percentage := return_pct
  , total_dividends := total_dividends
  , holdings_count := hs.length }

/-- The descending end_value ordering of the holdings query
(SELECT * FROM holdings ORDER BY end_value DESC). -/
def byEndValueDesc (a b : Holding) : Prop := b.end_value ≤ a.end_value

instance : DecidableRel byEndValueDesc := fun a b =>
  inferInstanceAs (Decidable (b.end_value ≤ a.end_value))

instance : IsTotal Holding byEndValueDesc :=
  ⟨fun a b => le_total b.end_value a.end_value⟩

instance : IsTrans Holding byEndValueDesc :=
  ⟨fun _ _ _ hab hbc => le_trans hbc hab⟩

/-- Response of GET /api/portfolio. -/
structure PortfolioResponse where
  holdings : List Holding
  summary : PortfolioSummary
deriving DecidableEq

/-- GET /api/portfolio (source: get_portfolio, lines 556-596): reads the
holdings ordered by end_value descending; an empty table yields the
all-zero summary, otherwise the metrics of lines 581-585 are rounded to
2 decimal places in the JSON summary. -/
def get_portfolio (store : List Holding) : PortfolioResponse :=
  let holdings_df := List.insertionSort byEndValueDesc store
  if holdings_df.isEmpty then
    { holdings := []
    , summary := ⟨0, 0, 0, 0, 0⟩ }
  else
    let s := portfolioSummary holdings_df
    { holdings := holdings_df
    , summary :=
      { total_value := round2 s.total_value
      , total_return := round2 s.total_return
      , return_percentage := round2 s.return_percentage
      , total_dividends := round2 s.total_dividends
      , holdings_count := s.holdings_count } }

/-- A parsed CSV row after the column_mapping rename in upload_portfolio
(lines 613-625): each internal field may be absent, in which case
row.get supplies the default (lines 642-650). -/
structure CsvRow where
  ticker : Option String
  exchange : Option String
  currency : Option String
  start_value : Option ℚ
  end_value : Option ℚ
  start_price : Option ℚ
  end_price : Option ℚ
  dividends : Option ℚ
  fees : Option ℚ
deriving DecidableEq

/-- The INSERT of one row (upload_portfolio, lines 635-651): row.get with
the per-field defaults of the source. -/
def rowToHolding (r : CsvRow) : Holding :=
  { ticker := r.ticker.getD ""
  , exchange := r.exchange.getD ""
  , currency := r.currency.getD "USD"
  , start_value := r.start_value.getD 0
  , end_value := r.end_value.getD 0
  , start_price := r.start_price.getD 0
  , end_price := r.end_price.getD 0
  , dividends := r.dividends.getD 0
  , fees := r.fees.getD 0 }

/-- An uploaded file as upload_portfolio sees it: its filename, and the
outcome of pd.read_csv plus the column rename (the pandas parse is
external to the repository; it is modelled as the parse outcome carried
by the file, an exception message on failure). -/
structure UploadedFile where
  filename : String
  parsed : Except String (List CsvRow)

/-- The multipart request of POST /api/upload: the optional file field. -/
structure UploadRequest where
  file : Option UploadedFile

/-- Body of the POST /api/upload response. -/
inductive UploadOutcome where
  | ok (message : String) (holdings_count : ℕ)
  | badRequest (error : String)
deriving DecidableEq

/-- HTTP status of an upload outcome: 200 on success, 400 on error. -/
def uploadStatus : UploadOutcome → ℕ
  | .ok _ _ => 200
  | .badRequest _ => 400

/-- POST /api/upload (source: upload_portfolio, lines 598-662): missing
file field or empty filename answer 400; a parse failure is caught and
answered 400 with the exception text; on success the holdings table is
cleared and the parsed rows inserted.  Returns the new store and the
response. -/
def upload_portfolio (store : List Holding) (req : UploadRequest) :
    List Holding × UploadOutcome :=
  match req.file with
  | none => (store, .badRequest "No file provided")
  | some file =>
    if file.filename = "" then (store, .badRequest "No file selected")
    else
      match file.parsed with
      | .error e => (store, .badRequest e)
      | .ok rows =>
        (rows.map rowToHolding,
          .ok "Portfolio uploaded successfully" rows.length)

/-- The fields of the yfinance info dict that get_market_data reads
(lines 685-695); each may be absent from the provider answer. -/
structure TickerInfo where
  regularMarketPrice : Option ℚ
  previousClose : Option ℚ
  regularMarketVolume : Option ℤ
  marketCap : Option ℚ
deriving DecidableEq

/-- One market-data quote as stored and returned by get_market_data. -/
structure Quote where
  price : ℚ
  change : ℚ
  volume : ℤ
  market_cap : ℚ
deriving DecidableEq

/-- The all-zero quote substituted when the fetch of a ticker fails
(line 702). -/
def zeroQuote : Quote := ⟨0, 0, 0, 0⟩

/-- The quote built from a fetched info dict (lines 688-696):
current price with the previousClose and 0 fallbacks, day change
guarded against a zero previous close with Python truthiness, and the
volume and market-cap defaults. -/
def quoteOfInfo (info : TickerInfo) : Quote :=
  let current_price := info.regularMarketPrice.getD (info.previousClose.getD 0)
  let prev_close := info.previousClose.getD current_price
  { price := current_price
  , change :=
      if prev_close ≠ 0 then (current_price - prev_close) / prev_close * 100
      else 0
  , volume := info.regularMarketVolume.getD 0
  , market_cap := info.marketCap.getD 0 }

/-- The per-ticker try/except body of get_market_data (lines 683-702):
the external lookup is an oracle that either yields the info dict or
throws; on a throw the ticker gets the all-zero quote and the loop
continues. -/
def fetchQuote (fetch : String → Except String TickerInfo) (t : String) : Quote :=
  match fetch t with
  | .ok info => quoteOfInfo info
  | .error _ => zeroQuote

/-- The ticker list of get_market_data (lines 670-679):
SELECT DISTINCT ticker FROM holdings WHERE end_value > 0. -/
def marketTickers (store : List Holding) : List String :=
  ((store.filter fun h => h.end_value > 0).map Holding.ticker).dedup

/-- Response of GET /api/market-data (the last_updated timestamp is
incidental and omitted). -/
inductive MarketResponse where
  | noHoldings (message : String)
  | ok (market_data : List (String × Quote))
deriving DecidableEq

/-- GET /api/market-data (source: get_market_data, lines 664-724): with
no qualifying holdings the cache is untouched and a message returned;
otherwise every distinct ticker is fetched (failures degraded to the
zero quote), the market_data table is wholesale-replaced with the batch,
and the batch is returned as a success.  Returns the new cache and the
response. -/
def get_market_data (fetch : String → Except String TickerInfo)
    (store : List Holding) (cache : List (String × Quote)) :
    List (String × Quote) × MarketResponse :=
  let tickers := marketTickers store
  if tickers.isEmpty then (cache, .noHoldings "No holdings to update")
  else
    let market_data := tickers.map fun t => (t, fetchQuote fetch t)
    (market_data, .ok market_data)

/-- Looking a key up in a keyed map of itself always yields the mapped
value. -/
theorem lookup_map_self {β : Type} (f : String → β) :
    ∀ (l : List String) (t : String), t ∈ l →
      (l.map fun x => (x, f x)).lookup t = some (f t) := by
  intro l
  induction l with
  | nil => intro t ht; cases ht
  | cons a as ih =>
    intro t ht
    by_cases hta : t = a
    · subst hta
      simp [List.lookup]
    · have hmem : t ∈ as := by
        rcases List.mem_cons.mp ht with h | h
        · exact absurd h hta
        · exact h
      have hbeq : (t == a) = false := by
        simp [hta]
      simp [List.lookup, hbeq]
      exact ih t hmem

/-- C5: for the holding AAPL with start_value 1000 and end_value 1200
the computed return percentage is exactly 20, the rule-7 condition
return_pct > 20 is false at the boundary, and the classification falls
through to the final rule, HOLD with action Maintain. -/
theorem C5_aapl_boundary :
    returnPct 1000 1200 = 20 ∧
    ¬ (returnPct 1000 1200 > 20) ∧
    (recommendFor ⟨"AAPL", "NASDAQ", "USD", 1000, 1200, 150, 180, 20, 5⟩).recommendation
      = .HOLD ∧
    (recommendFor ⟨"AAPL", "NASDAQ", "USD", 1000, 1200, 150, 180, 20, 5⟩).action
      = "Maintain" :=
  of_decide_eq_true (by with_unfolding_all rfl)

/-- C2 counterexample: for the holding XYZ with start_value 1000 and
end_value 0 the claimed triple (CLOSED, Position Closed,
return_percentage 0.0) is false on the code: the classification is
CLOSED with that action, but the reported return percentage is the
start_value > 0 branch value (0 - 1000) / 1000 * 100 = -100, not 0. -/
theorem C2_xyz_counterexample :
    ¬ ((recommendFor ⟨"XYZ", "", "USD", 1000, 0, 0, 0, 0, 0⟩).recommendation = .CLOSED ∧
       (recommendFor ⟨"XYZ", "", "USD", 1000, 0, 0, 0, 0, 0⟩).action = "Position Closed" ∧
       (recommendFor ⟨"XYZ", "", "USD", 1000, 0, 0, 0, 0, 0⟩).return_percentage = 0) :=
  of_decide_eq_true (by with_unfolding_all rfl)

/-- C2 (amended): for the holding XYZ with start_value 1000 and
end_value 0 the recommendation endpoint classifies it CLOSED with action
Position Closed, and the return percentage it reports is -100.0 (from
the start_value > 0 branch formula). -/
theorem C2_xyz_closed_return :
    get_recommendations [⟨"XYZ", "", "USD", 1000, 0, 0, 0, 0, 0⟩] =
      .ok [⟨"XYZ", 0, -100, .CLOSED, "Position Closed", "Position has been exited"⟩] :=
  of_decide_eq_true (by with_unfolding_all rfl)

/-- C6: the recommendation engine computes the return percentage as
(end_value - start_value) / start_value * 100 when start_value > 0, and
when start_value = 0 it yields 0 if end_value is also 0 and 100
otherwise. -/
theorem C6_return_pct_formula (s e : ℚ) :
    (s > 0 → returnPct s e = (e - s) / s * 100) ∧
    (s = 0 → (e = 0 → returnPct s e = 0) ∧ (e ≠ 0 → returnPct s e = 100)) := by
  constructor
  · intro hpos
    simp [returnPct, hpos]
  · intro hz
    subst hz
    constructor
    · intro he
      simp [returnPct, he]
    · intro he
      simp [returnPct, he]

/-- Witness for C6 at concrete inputs covering the three branches. -/
theorem C6_return_pct_formula_witness :
    returnPct 1000 1500 = (1500 - 1000) / 1000 * 100 ∧
    returnPct 0 0 = 0 ∧
    returnPct 0 7 = 100 :=
  ⟨(C6_return_pct_formula 1000 1500).1 (by norm_num),
   ((C6_return_pct_formula 0 0).2 rfl).1 rfl,
   ((C6_return_pct_formula 0 7).2 rfl).2 (by norm_num)⟩

/-- C3: for every holding set the portfolio summary metrics satisfy
total_value = sum of end_values, total_return = total_value minus the
sum of start_values, return_percentage = total_return divided by the
total start value times 100 when that total is positive and 0 when it is
zero (no division by zero can occur), and the empty holding set yields
the all-zero summary response without failing. -/
theorem C3_portfolio_summary (hs : List Holding) :
    (portfolioSummary hs).total_value = (hs.map Holding.end_value).sum ∧
    (portfolioSummary hs).total_return =
      (portfolioSummary hs).total_value - (hs.map Holding.start_value).sum ∧
    ((hs.map Holding.start_value).sum > 0 →
      (portfolioSummary hs).return_percentage =
        (portfolioSummary hs).total_return / (hs.map Holding.start_value).sum * 100) ∧
    ((hs.map Holding.start_value).sum = 0 →
      (portfolioSummary hs).return_percentage = 0) ∧
    get_portfolio [] = ⟨[], ⟨0, 0, 0, 0, 0⟩⟩ := by
  refine ⟨rfl, rfl, ?_, ?_, rfl⟩
  · intro hpos
    simp [portfolioSummary, hpos]
  · intro hz
    simp [portfolioSummary, hz]

/-- Witness for C3: a one-holding set with positive total start value,
and the empty set for the zero-guard branch. -/
theorem C3_portfolio_summary_witness :
    (portfolioSummary [⟨"A", "", "USD", 100, 150, 0, 0, 10, 0⟩]).return_percentage =
      (portfolioSummary [⟨"A", "", "USD", 100, 150, 0, 0, 10, 0⟩]).total_return /
        (([⟨"A", "", "USD", 100, 150, 0, 0, 10, 0⟩] :
            List Holding).map Holding.start_value).sum * 100 ∧
    (portfolioSummary ([] : List Holding)).return_percentage = 0 :=
  ⟨(C3_portfolio_summary [⟨"A", "", "USD", 100, 150, 0, 0, 10, 0⟩]).2.2.1
      (of_decide_eq_true (by with_unfolding_all rfl)),
   (C3_portfolio_summary []).2.2.2.1 rfl⟩

/-- C1: the rule chain is ordered with first match winning: a holding
with ticker SMH, positive start and end values and return percentage
150 (matching both the SMH-specific rule and the generic
return_pct > 50 rule) is classified SELL with action Take Profits and
the SMH-specific rationale, not the generic one. -/
theorem C1_smh_first_match (h : Holding)
    (ht : h.ticker = "SMH") (_hs : h.start_value > 0) (he : h.end_value > 0)
    (hr : returnPct h.start_value h.end_value = 150) :
    (recommendFor h).recommendation = .SELL ∧
    (recommendFor h).action = "Take Profits" ∧
    (recommendFor h).rationale = "Exceptional gain of 150.0%. Lock in 50-70% profits" ∧
    (recommendFor h).rationale ≠
      "Strong gain of 150.0%. Consider taking partial profits" := by
  have hne : h.end_value ≠ 0 := ne_of_gt he
  have hf : fmt1 150 = "150.0" := by with_unfolding_all rfl
  simp only [recommendFor, hr, ht]
  rw [if_neg (by simp [hne]), if_pos (by norm_num)]
  refine ⟨rfl, rfl, by rw [hf]; with_unfolding_all rfl, ?_⟩
  rw [hf]
  decide

/-- Witness for C1: the SMH holding going from 1000 to 2500 has return
percentage 150 and receives the symbol-specific SELL. -/
theorem C1_smh_first_match_witness :
    returnPct (1000 : ℚ) 2500 = 150 ∧
    (recommendFor ⟨"SMH", "NASDAQ", "USD", 1000, 2500, 0, 0, 0, 0⟩).recommendation
      = .SELL ∧
    (recommendFor ⟨"SMH", "NASDAQ", "USD", 1000, 2500, 0, 0, 0, 0⟩).rationale =
      "Exceptional gain of 150.0%. Lock in 50-70% profits" := by
  have h150 : returnPct (1000 : ℚ) 2500 = 150 := by with_unfolding_all rfl
  have hres := C1_smh_first_match ⟨"SMH", "NASDAQ", "USD", 1000, 2500, 0, 0, 0, 0⟩
    rfl (by norm_num) (by norm_num) h150

  exact ⟨h150, hres.1, hres.2.2.1⟩

/-- C4: every holding is classified CLOSED, SELL or HOLD; no rule of the
recommendation engine ever produces BUY. -/
theorem C4_no_buy (h : Holding) :
    (recommendFor h).recommendation ≠ .BUY ∧
    ((recommendFor h).recommendation = .CLOSED ∨
     (recommendFor h).recommendation = .SELL ∨
     (recommendFor h).recommendation = .HOLD) := by
  unfold recommendFor
  dsimp only
  repeat' split
  all_goals first
    | exact ⟨fun hc => Recommendation.noConfusion hc, Or.inl rfl⟩
    | exact ⟨fun hc => Recommendation.noConfusion hc, Or.inr (Or.inl rfl)⟩
    | exact ⟨fun hc => Recommendation.noConfusion hc, Or.inr (Or.inr rfl)⟩

/-- C10: GET /api/portfolio returns the holdings sorted by end_value in
descending order, and the returned list is a permutation of the stored
holding set. -/
theorem C10_sorted_desc (store : List Holding) :
    List.Sorted byEndValueDesc (get_portfolio store).holdings ∧
    (get_portfolio store).holdings.Perm store := by
  unfold get_portfolio
  dsimp only
  split
  case isTrue hemp =>
    have hnil : List.insertionSort byEndValueDesc store = [] := by
      simpa [List.isEmpty_iff] using hemp
    have hper := List.perm_insertionSort byEndValueDesc store
    rw [hnil] at hper
    exact ⟨List.sorted_nil, hper⟩
  case isFalse hne =>
    exact ⟨List.sorted_insertionSort byEndValueDesc store,
      List.perm_insertionSort byEndValueDesc store⟩

/-- C7: a successful upload replaces the holding set wholesale: whatever
the prior store held, after a successfully parsed upload of n rows the
store contains exactly the n uploaded rows and the response reports
holdings_count = n. -/
theorem C7_upload_replaces (store : List Holding) (f : UploadedFile)
    (rows : List CsvRow) (hname : f.filename ≠ "") (hparse : f.parsed = .ok rows) :
    (upload_portfolio store ⟨some f⟩).1 = rows.map rowToHolding ∧
    (upload_portfolio store ⟨some f⟩).1.length = rows.length ∧
    (upload_portfolio store ⟨some f⟩).2 =
      .ok "Portfolio uploaded successfully" rows.length := by
  simp [upload_portfolio, hname, hparse]

/-- Witness for C7: after a 5-holding store, uploading a 3-row file
leaves exactly 3 holdings. -/
theorem C7_upload_replaces_witness :
    (upload_portfolio
        [⟨"A", "", "USD", 1, 1, 0, 0, 0, 0⟩, ⟨"B", "", "USD", 1, 1, 0, 0, 0, 0⟩,
         ⟨"C", "", "USD", 1, 1, 0, 0, 0, 0⟩, ⟨"D", "", "USD", 1, 1, 0, 0, 0, 0⟩,
         ⟨"E", "", "USD", 1, 1, 0, 0, 0, 0⟩]
        ⟨some ⟨"p.csv", .ok
          [⟨some "X", none, none, some 10, some 11, none, none, none, none⟩,
           ⟨some "Y", none, none, some 20, some 21, none, none, none, none⟩,
           ⟨some "Z", none, none, some 30, some 31, none, none, none, none⟩]⟩⟩).1.length
      = 3 ∧
    (upload_portfolio
        [⟨"A", "", "USD", 1, 1, 0, 0, 0, 0⟩, ⟨"B", "", "USD", 1, 1, 0, 0, 0, 0⟩,
         ⟨"C", "", "USD", 1, 1, 0, 0, 0, 0⟩, ⟨"D", "", "USD", 1, 1, 0, 0, 0, 0⟩,
         ⟨"E", "", "USD", 1, 1, 0, 0, 0, 0⟩]
        ⟨some ⟨"p.csv", .ok
          [⟨some "X", none, none, some 10, some 11, none, none, none, none⟩,
           ⟨some "Y", none, none, some 20, some 21, none, none, none, none⟩,
           ⟨some "Z", none, none, some 30, some 31, none, none, none, none⟩]⟩⟩).2
      = .ok "Portfolio uploaded successfully" 3 := by
  have h := C7_upload_replaces
    [⟨"A", "", "USD", 1, 1, 0, 0, 0, 0⟩, ⟨"B", "", "USD", 1, 1, 0, 0, 0, 0⟩,
     ⟨"C", "", "USD", 1, 1, 0, 0, 0, 0⟩, ⟨"D", "", "USD", 1, 1, 0, 0, 0, 0⟩,
     ⟨"E", "", "USD", 1, 1, 0, 0, 0, 0⟩]
    ⟨"p.csv", .ok
      [⟨some "X", none, none, some 10, some 11, none, none, none, none⟩,
       ⟨some "Y", none, none, some 20, some 21, none, none, none, none⟩,
       ⟨some "Z", none, none, some 30, some 31, none, none, none, none⟩]⟩
    [⟨some "X", none, none, some 10, some 11, none, none, none, none⟩,
     ⟨some "Y", none, none, some 20, some 21, none, none, none, none⟩,
     ⟨some "Z", none, none, some 30, some 31, none, none, none, none⟩]
    (by decide) rfl
  exact ⟨h.2.1, h.2.2⟩

/-- C8: POST /api/upload answers 400 with an error body when the file
field is missing, when the filename is empty, and when the file cannot
be parsed; in every one of these error cases the holding set is left
unchanged. -/
theorem C8_upload_errors (store : List Holding) :
    ((upload_portfolio store ⟨none⟩).2 = .badRequest "No file provided" ∧
     uploadStatus (upload_portfolio store ⟨none⟩).2 = 400 ∧
     (upload_portfolio store ⟨none⟩).1 = store) ∧
    (∀ f : UploadedFile, f.filename = "" →
      (upload_portfolio store ⟨some f⟩).2 = .badRequest "No file selected" ∧
      uploadStatus (upload_portfolio store ⟨some f⟩).2 = 400 ∧
      (upload_portfolio store ⟨some f⟩).1 = store) ∧
    (∀ (f : UploadedFile) (e : String), f.filename ≠ "" → f.parsed = .error e →
      (upload_portfolio store ⟨some f⟩).2 = .badRequest e ∧
      uploadStatus (upload_portfolio store ⟨some f⟩).2 = 400 ∧
      (upload_portfolio store ⟨some f⟩).1 = store) := by
  refine ⟨⟨rfl, rfl, rfl⟩, ?_, ?_⟩
  · intro f hf
    simp [upload_portfolio, hf, uploadStatus]
  · intro f e hf he
    simp [upload_portfolio, hf, he, uploadStatus]

/-- Witness for C8: the three error cases at concrete requests against a
one-holding store. -/
theorem C8_upload_errors_witness :
    ((upload_portfolio [⟨"A", "", "USD", 1, 1, 0, 0, 0, 0⟩] ⟨none⟩).2 =
      .badRequest "No file provided" ∧
     (upload_portfolio [⟨"A", "", "USD", 1, 1, 0, 0, 0, 0⟩] ⟨none⟩).1 =
      [⟨"A", "", "USD", 1, 1, 0, 0, 0, 0⟩]) ∧
    (upload_portfolio [⟨"A", "", "USD", 1, 1, 0, 0, 0, 0⟩]
        ⟨some ⟨"", .ok []⟩⟩).2 = .badRequest "No file selected" ∧
    ((upload_portfolio [⟨"A", "", "USD", 1, 1, 0, 0, 0, 0⟩]
        ⟨some ⟨"p.csv", .error "boom"⟩⟩).2 = .badRequest "boom" ∧
     (upload_portfolio [⟨"A", "", "USD", 1, 1, 0, 0, 0, 0⟩]
        ⟨some ⟨"p.csv", .error "boom"⟩⟩).1 = [⟨"A", "", "USD", 1, 1, 0, 0, 0, 0⟩]) := by
  have h := C8_upload_errors [⟨"A", "", "USD", 1, 1, 0, 0, 0, 0⟩]
  have h3 := h.2.2 ⟨"p.csv", .error "boom"⟩ "boom" (by decide) rfl
  exact ⟨⟨h.1.1, h.1.2.2⟩, (h.2.1 ⟨"", .ok []⟩ rfl).1, h3.1, h3.2.2⟩

/-- C9: a per-ticker fetch failure never aborts the batch: a ticker
whose external lookup throws gets the all-zero quote, every ticker whose
lookup succeeds keeps its fetched quote in the persisted batch, and the
endpoint still answers with the market data, not an error. -/
theorem C9_fetch_isolation (fetch : String → Except String TickerInfo)
    (store : List Holding) (cache : List (String × Quote))
    (t : String) (e : String)
    (ht : t ∈ marketTickers store) (hfail : fetch t = .error e) :
    (get_market_data fetch store cache).1.lookup t = some zeroQuote ∧
    (∀ t' info, t' ∈ marketTickers store → fetch t' = .ok info →
      (get_market_data fetch store cache).1.lookup t' = some (quoteOfInfo info)) ∧
    (get_market_data fetch store cache).2 =
      .ok (get_market_data fetch store cache).1 := by
  have hne : (marketTickers store).isEmpty = false := by
    cases hmt : marketTickers store with
    | nil => rw [hmt] at ht; cases ht
    | cons a as => rfl
  constructor
  · have hl := lookup_map_self (fetchQuote fetch) (marketTickers store) t ht
    simp only [get_market_data, hne, Bool.false_eq_true, if_false]
    rw [hl, fetchQuote, hfail]
  · constructor
    · intro t' info ht' hok
      have hl := lookup_map_self (fetchQuote fetch) (marketTickers store) t' ht'
      simp only [get_market_data, hne, Bool.false_eq_true, if_false]
      rw [hl, fetchQuote, hok]
    · simp only [get_market_data, hne, Bool.false_eq_true, if_false]

/-- Witness for C9: with a two-ticker store where the lookup of BAD
throws and the lookup of GOOD succeeds, the batch holds the zero quote
for BAD and the fetched quote for GOOD. -/
theorem C9_fetch_isolation_witness :
    (get_market_data
        (fun s => if s = "BAD" then .error "boom"
                  else .ok ⟨some 10, some 8, some 5, some 1000⟩)
        [⟨"BAD", "", "USD", 1, 2, 0, 0, 0, 0⟩, ⟨"GOOD", "", "USD", 1, 3, 0, 0, 0, 0⟩]
        []).1.lookup "BAD" = some zeroQuote ∧
    (get_market_data
        (fun s => if s = "BAD" then .error "boom"
                  else .ok ⟨some 10, some 8, some 5, some 1000⟩)
        [⟨"BAD", "", "USD", 1, 2, 0, 0, 0, 0⟩, ⟨"GOOD", "", "USD", 1, 3, 0, 0, 0, 0⟩]
        []).1.lookup "GOOD"
      = some (quoteOfInfo ⟨some 10, some 8, some 5, some 1000⟩) := by
  have h := C9_fetch_isolation
    (fun s => if s = "BAD" then .error "boom"
              else .ok ⟨some 10, some 8, some 5, some 1000⟩)
    [⟨"BAD", "", "USD", 1, 2, 0, 0, 0, 0⟩, ⟨"GOOD", "", "USD", 1, 3, 0, 0, 0, 0⟩]
    [] "BAD" "boom"
    (of_decide_eq_true (by with_unfolding_all rfl)) rfl
  exact ⟨h.1, h.2.1 "GOOD" ⟨some 10, some 8, some 5, some 1000⟩
    (of_decide_eq_true (by with_unfolding_all rfl)) rfl⟩

end PortfolioApp
